import Mathlib

/-!
Shallow embedding of the tracks/playlists REST controllers
(src/controllers/tracks.controller.js, src/controllers/playlists.controller.js).

JavaScript semantics modelled explicitly:
  * `parseInt` (radix unspecified) is `parseIntJS : String → Option Int`,
    `none` standing for `NaN`;
  * `String.prototype.includes` is `jsIncludes`;
  * JS truthiness of a possibly-absent JSON field is modelled per type:
    an absent field or an empty string / zero number is falsy, any array
    is truthy;
  * `Array.prototype.findIndex` returning -1 is `List.findIdx?` returning
    `none`;
  * `Array.prototype.sort` with a comparator is `List.insertionSort` over
    the comparator-induced relation; the `localeCompare` comparator itself
    is an external parameter `lc : String → String → Int`.
Each controller handler becomes a pure function from the stored collection
and the decoded request to the HTTP response (and the new collection for
mutating handlers).
-/

/-- JS whitespace skipped by parseInt (ASCII fragment of StrWhiteSpace). -/
def isWhitespaceJS (c : Char) : Bool :=
  c = ' ' || c = '\t' || c = '\n' || c = '\r' || c = '\x0b' || c = '\x0c'

/-- Value of a decimal digit character, `none` if not a digit. -/
def decDigitVal (c : Char) : Option Nat :=
  if c.isDigit then some (c.toNat - 48) else none

/-- Value of a hexadecimal digit character, `none` if not a hex digit. -/
def hexDigitVal (c : Char) : Option Nat :=
  if c.isDigit then some (c.toNat - 48)
  else if 'a' ≤ c && c ≤ 'f' then some (c.toNat - 87)
  else if 'A' ≤ c && c ≤ 'F' then some (c.toNat - 55)
  else none

/-- Accumulate the longest prefix of digits (per `dv`) into a number. -/
def takeDigits (base : Nat) (dv : Char → Option Nat) : List Char → Nat → Nat
  | [], acc => acc
  | c :: cs, acc =>
    match dv c with
    | some d => takeDigits base dv cs (acc * base + d)
    | none => acc

/-- Parse the longest digit prefix; `none` when it is empty (JS `NaN`). -/
def parseDigits (base : Nat) (dv : Char → Option Nat) : List Char → Option Nat
  | [] => none
  | c :: cs =>
    match dv c with
    | some d => some (takeDigits base dv cs d)
    | none => none

/-- JS `parseInt(s)` with unspecified radix: skip whitespace, optional
sign, `0x`/`0X` switches to base 16, else the longest decimal digit
prefix; `none` models `NaN`. -/
def parseIntJS (s : String) : Option Int :=
  let cs := s.toList.dropWhile isWhitespaceJS
  let signed : Bool × List Char :=
    match cs with
    | '-' :: rest => (true, rest)
    | '+' :: rest => (false, rest)
    | rest => (false, rest)
  let mag : Option Nat :=
    match signed.2 with
    | '0' :: 'x' :: rest => parseDigits 16 hexDigitVal rest
    | '0' :: 'X' :: rest => parseDigits 16 hexDigitVal rest
    | rest => parseDigits 10 decDigitVal rest
  mag.map (fun n => if signed.1 then -(n : Int) else (n : Int))

/-- `pat` occurs at the start of `s`. -/
def listStartsWith : List Char → List Char → Bool
  | _, [] => true
  | [], _ :: _ => false
  | a :: as, b :: bs => a = b && listStartsWith as bs

/-- `pat` occurs somewhere inside `s` (JS `s.includes(pat)` on char lists). -/
def listContains : List Char → List Char → Bool
  | [], pat => pat.isEmpty
  | a :: as, pat => listStartsWith (a :: as) pat || listContains as pat

/-- JS `s.includes(pat)`. -/
def jsIncludes (s pat : String) : Bool :=
  listContains s.toList pat.toList

/-- JS `s.toLowerCase()` (ASCII case mapping, applied per character). -/
def toLowerJS (s : String) : String :=
  String.mk (s.toList.map Char.toLower)

/-- A stored track record (src/models/tracks.json shape). -/
structure Track where
  id : Int
  naam : String
  bpm : Int
  duur : Int
  jaar : Int
  artiesten : List String
  genres : List String
  spotify_url : String
deriving DecidableEq, Repr

/-- A stored playlist record (src/models/playlists.json shape). -/
structure Playlist where
  id : Int
  naam : String
  beschrijving : String
  author : String
  visibility : String
  spotify_url : String
deriving DecidableEq, Repr

/-- A JSON request body for the tracks resource: each field either absent
or present with a value of its JSON type. -/
structure TrackBody where
  id : Option Int
  naam : Option String
  bpm : Option Int
  duur : Option Int
  jaar : Option Int
  artiesten : Option (List String)
  genres : Option (List String)
  spotify_url : Option String
deriving DecidableEq, Repr

/-- A JSON request body for the playlists resource. -/
structure PlaylistBody where
  id : Option Int
  naam : Option String
  beschrijving : Option String
  author : Option String
  visibility : Option String
  spotify_url : Option String
deriving DecidableEq, Repr

/-- Query parameters of GET /api/tracks; absent parameters are `none`. -/
structure TracksQuery where
  sort : Option String
  naam : Option String
  artiest : Option String
  genre : Option String
  jaar : Option String
deriving DecidableEq, Repr

/-- Query parameters of GET /api/playlists.  The controller destructures
only `sort` from `req.query`; any other supplied parameters are part of
the request but never read. -/
structure PlaylistsQuery where
  sort : Option String
  naam : Option String
  beschrijving : Option String
  author : Option String
  visibility : Option String
deriving DecidableEq, Repr

/-- The JSON body shapes this API responds with. -/
inductive Body (α : Type) where
  | emptyObj : Body α
  | err : String → Body α
  | ok : α → Body α
  | okList : List α → Nat → Body α
  | fail : String → Body α
deriving DecidableEq, Repr

/-- An HTTP response: status code and JSON body. -/
structure ApiResponse (α : Type) where
  status : Nat
  body : Body α
deriving DecidableEq, Repr

/-- The data list carried by an `okList` body (empty otherwise). -/
def Body.dataList : Body α → List α
  | Body.okList l _ => l
  | _ => []

/-- Truthiness of a query-parameter value: present and non-empty. -/
def qTruthy : Option String → Bool
  | none => false
  | some s => !(s = "")

/-- Sort step shared by both list handlers: `sort=asc` sorts ascending by
the display name under comparator `lc`, `sort=desc` descending, anything
else leaves the order unchanged. -/
def sortByName (lc : String → String → Int) (sort : Option String)
    (name : α → String) (l : List α) : List α :=
  if sort = some "asc" then
    List.insertionSort (fun a b => lc (name a) (name b) ≤ 0) l
  else if sort = some "desc" then
    List.insertionSort (fun a b => lc (name b) (name a) ≤ 0) l
  else l

/-- Filter step `if (naam) tracks.filter(t => t.naam.toLowerCase().includes(naam.toLowerCase()))`. -/
def filterNaam (naam : Option String) (tracks : List Track) : List Track :=
  match naam with
  | some s =>
    if s = "" then tracks
    else tracks.filter (fun t => jsIncludes (toLowerJS t.naam) (toLowerJS s))
  | none => tracks

/-- Filter step on `artiest`: some artist contains the query, case-insensitively. -/
def filterArtiest (artiest : Option String) (tracks : List Track) : List Track :=
  match artiest with
  | some s =>
    if s = "" then tracks
    else tracks.filter (fun t => t.artiesten.any (fun a => jsIncludes (toLowerJS a) (toLowerJS s)))
  | none => tracks

/-- Filter step on `genre`: some genre contains the query, case-insensitively. -/
def filterGenre (genre : Option String) (tracks : List Track) : List Track :=
  match genre with
  | some s =>
    if s = "" then tracks
    else tracks.filter (fun t => t.genres.any (fun g => jsIncludes (toLowerJS g) (toLowerJS s)))
  | none => tracks

/-- Filter step `if (jaar) tracks.filter(t => t.jaar === parseInt(jaar))`;
a `NaN` parse (`none`) compares unequal to every stored year. -/
def filterJaar (jaar : Option String) (tracks : List Track) : List Track :=
  match jaar with
  | some s =>
    if s = "" then tracks
    else tracks.filter (fun t => some t.jaar = parseIntJS s)
  | none => tracks

/-- The filter pipeline of getAllTracks, in source order. -/
def filteredTracks (q : TracksQuery) (tracks : List Track) : List Track :=
  filterJaar q.jaar (filterGenre q.genre (filterArtiest q.artiest (filterNaam q.naam tracks)))

/-- GET /api/tracks : filter, then sort, then the success list envelope. -/
def getAllTracks (lc : String → String → Int) (tracks : List Track)
    (q : TracksQuery) : ApiResponse Track :=
  let ts := sortByName lc q.sort Track.naam (filteredTracks q tracks)
  ⟨200, Body.okList ts ts.length⟩

/-- `findTrackIndex`: index of the first track whose id equals the parsed
path id; `none` models findIndex returning -1. -/
def findTrackIndex (tracks : List Track) (id : String) : Option Nat :=
  tracks.findIdx? (fun t => some t.id = parseIntJS id)

/-- GET /api/tracks/:id. -/
def getTrackById (tracks : List Track) (id : String) : ApiResponse Track :=
  match tracks.find? (fun t => some t.id = parseIntJS id) with
  | none => ⟨404, Body.emptyObj⟩
  | some t => ⟨200, Body.ok t⟩

/-- Joi trackSchemaCreate: every field except spotify_url required, id not
a schema key (an unknown key is rejected); the first violation is
reported.  Field types are enforced by the `TrackBody` representation. -/
def validateTrackCreate (b : TrackBody) : Option String :=
  if b.id.isSome then some "id is not allowed"
  else if b.naam.isNone then some "naam is required"
  else if b.bpm.isNone then some "bpm is required"
  else if b.duur.isNone then some "duur is required"
  else if b.jaar.isNone then some "jaar is required"
  else if b.artiesten.isNone then some "artiesten is required"
  else if b.genres.isNone then some "genres is required"
  else none

/-- Joi trackSchemaUpdate: like create but with a required integer id. -/
def validateTrackUpdate (b : TrackBody) : Option String :=
  if b.id.isNone then some "id is required"
  else if b.naam.isNone then some "naam is required"
  else if b.bpm.isNone then some "bpm is required"
  else if b.duur.isNone then some "duur is required"
  else if b.jaar.isNone then some "jaar is required"
  else if b.artiesten.isNone then some "artiesten is required"
  else if b.genres.isNone then some "genres is required"
  else none

/-- `tracks.length > 0 ? Math.max(...tracks.map(t => t.id)) + 1 : 1`. -/
def nextTrackId (tracks : List Track) : Int :=
  match tracks with
  | [] => 1
  | t :: ts => (ts.map Track.id).foldl max t.id + 1

/-- The record built by POST /api/tracks from a validated body.  The
defaults fed to `getD` are dead: validation passed, so each required
field is present, and `spotify_url || ''` maps both an absent and an
empty url to the empty string. -/
def createdTrackOf (tracks : List Track) (b : TrackBody) : Track :=
  { id := nextTrackId tracks
    naam := b.naam.getD ""
    bpm := b.bpm.getD 0
    duur := b.duur.getD 0
    jaar := b.jaar.getD 0
    artiesten := b.artiesten.getD []
    genres := b.genres.getD []
    spotify_url := b.spotify_url.getD "" }

/-- POST /api/tracks. -/
def createTrack (tracks : List Track) (b : TrackBody) :
    ApiResponse Track × List Track :=
  match validateTrackCreate b with
  | some msg => (⟨400, Body.err msg⟩, tracks)
  | none =>
    let newTrack := createdTrackOf tracks b
    (⟨201, Body.ok newTrack⟩, tracks ++ [newTrack])

/-- The replacement record built by PUT /api/tracks/:id : every field
from the body with `id: parseInt(req.params.id)`.  The defaults fed to
`getD` are dead in context: validation passed, so each required field is
present, and the parsed path id matched a record so it is not `none`. -/
def updatedTrackOf (id : String) (b : TrackBody) : Track :=
  { id := (parseIntJS id).getD 0
    naam := b.naam.getD ""
    bpm := b.bpm.getD 0
    duur := b.duur.getD 0
    jaar := b.jaar.getD 0
    artiesten := b.artiesten.getD []
    genres := b.genres.getD []
    spotify_url := b.spotify_url.getD "" }

/-- PUT /api/tracks/:id : validate, look up by path id, overwrite every
field from the body with `id: parseInt(req.params.id)`. -/
def updateTrack (tracks : List Track) (id : String) (b : TrackBody) :
    ApiResponse Track × List Track :=
  match validateTrackUpdate b with
  | some msg => (⟨400, Body.err msg⟩, tracks)
  | none =>
    match findTrackIndex tracks id with
    | none => (⟨404, Body.emptyObj⟩, tracks)
    | some i =>
      let updatedTrack := updatedTrackOf id b
      (⟨200, Body.ok updatedTrack⟩, tracks.set i updatedTrack)

/-- `if (field) {rec.field = v}` on a string field: a supplied value is
applied only when truthy, i.e. non-empty. -/
def patchStr (cur : String) : Option String → String
  | some v => if v = "" then cur else v
  | none => cur

/-- `if (field) {rec.field = v}` on a number field: a supplied value is
applied only when truthy, i.e. non-zero. -/
def patchInt (cur : Int) : Option Int → Int
  | some v => if v = 0 then cur else v
  | none => cur

/-- `if (field) {rec.field = v}` on an array field: any array is truthy,
so a supplied value is always applied. -/
def patchArr (cur : List String) : Option (List String) → List String
  | some v => v
  | none => cur

/-- `if (field !== undefined) {rec.field = v}`: applied whenever present. -/
def patchDefined (cur : String) : Option String → String
  | some v => v
  | none => cur

/-- The PATCH merge on a track: spread the old record, then `if (field)`
truthiness assignments per field (`spotify_url` alone is tested with
`!== undefined`); the assignments are field-independent, so the
sequential JS mutations are this record. -/
def applyTrackPatch (t : Track) (b : TrackBody) : Track :=
  { id := t.id
    naam := patchStr t.naam b.naam
    bpm := patchInt t.bpm b.bpm
    duur := patchInt t.duur b.duur
    jaar := patchInt t.jaar b.jaar
    artiesten := patchArr t.artiesten b.artiesten
    genres := patchArr t.genres b.genres
    spotify_url := patchDefined t.spotify_url b.spotify_url }

/-- PATCH /api/tracks/:id : no validation; merge the body into the record
found by path id.  The inner `none` branch is dead code: an index produced
by `findIdx?` is always in range. -/
def patchTrack (tracks : List Track) (id : String) (b : TrackBody) :
    ApiResponse Track × List Track :=
  match findTrackIndex tracks id with
  | none => (⟨404, Body.emptyObj⟩, tracks)
  | some i =>
    match tracks[i]? with
    | none => (⟨404, Body.emptyObj⟩, tracks)
    | some t =>
      let u := applyTrackPatch t b
      (⟨200, Body.ok u⟩, tracks.set i u)

/-- DELETE /api/tracks/:id.  The inner `none` branch is dead code as in
`patchTrack`. -/
def deleteTrack (tracks : List Track) (id : String) :
    ApiResponse Track × List Track :=
  match findTrackIndex tracks id with
  | none => (⟨404, Body.emptyObj⟩, tracks)
  | some i =>
    match tracks[i]? with
    | none => (⟨404, Body.emptyObj⟩, tracks)
    | some t => (⟨200, Body.ok t⟩, tracks.eraseIdx i)

/-- GET /api/playlists : only `sort` is read from the query; there are no
filter steps. -/
def getAllPlaylists (lc : String → String → Int) (playlists : List Playlist)
    (q : PlaylistsQuery) : ApiResponse Playlist :=
  let ps := sortByName lc q.sort Playlist.naam playlists
  ⟨200, Body.okList ps ps.length⟩

/-- `findPlaylistIndex`. -/
def findPlaylistIndex (playlists : List Playlist) (id : String) : Option Nat :=
  playlists.findIdx? (fun p => some p.id = parseIntJS id)

/-- GET /api/playlists/:id. -/
def getPlaylistById (playlists : List Playlist) (id : String) : ApiResponse Playlist :=
  match playlists.find? (fun p => some p.id = parseIntJS id) with
  | none => ⟨404, Body.emptyObj⟩
  | some p => ⟨200, Body.ok p⟩

/-- Joi playlistSchemaCreate: id not a schema key; naam, beschrijving,
author, visibility required; visibility must be "public" or "private". -/
def validatePlaylistCreate (b : PlaylistBody) : Option String :=
  if b.id.isSome then some "id is not allowed"
  else if b.naam.isNone then some "naam is required"
  else if b.beschrijving.isNone then some "beschrijving is required"
  else if b.author.isNone then some "author is required"
  else
    match b.visibility with
    | none => some "visibility is required"
    | some v =>
      if v = "public" ∨ v = "private" then none
      else some "visibility must be one of public, private"

/-- Joi playlistSchemaUpdate: like create but with a required integer id. -/
def validatePlaylistUpdate (b : PlaylistBody) : Option String :=
  if b.id.isNone then some "id is required"
  else if b.naam.isNone then some "naam is required"
  else if b.beschrijving.isNone then some "beschrijving is required"
  else if b.author.isNone then some "author is required"
  else
    match b.visibility with
    | none => some "visibility is required"
    | some v =>
      if v = "public" ∨ v = "private" then none
      else some "visibility must be one of public, private"

/-- `playlists.length > 0 ? Math.max(...playlists.map(p => p.id)) + 1 : 1`. -/
def nextPlaylistId (playlists : List Playlist) : Int :=
  match playlists with
  | [] => 1
  | p :: ps => (ps.map Playlist.id).foldl max p.id + 1

/-- The record built by POST /api/playlists from a validated body. -/
def createdPlaylistOf (playlists : List Playlist) (b : PlaylistBody) : Playlist :=
  { id := nextPlaylistId playlists
    naam := b.naam.getD ""
    beschrijving := b.beschrijving.getD ""
    author := b.author.getD ""
    visibility := b.visibility.getD ""
    spotify_url := b.spotify_url.getD "" }

/-- POST /api/playlists. -/
def createPlaylist (playlists : List Playlist) (b : PlaylistBody) :
    ApiResponse Playlist × List Playlist :=
  match validatePlaylistCreate b with
  | some msg => (⟨400, Body.err msg⟩, playlists)
  | none =>
    let newPlaylist := createdPlaylistOf playlists b
    (⟨201, Body.ok newPlaylist⟩, playlists ++ [newPlaylist])

/-- The replacement record built by PUT /api/playlists/:id. -/
def updatedPlaylistOf (id : String) (b : PlaylistBody) : Playlist :=
  { id := (parseIntJS id).getD 0
    naam := b.naam.getD ""
    beschrijving := b.beschrijving.getD ""
    author := b.author.getD ""
    visibility := b.visibility.getD ""
    spotify_url := b.spotify_url.getD "" }

/-- PUT /api/playlists/:id (same shape as `updateTrack`). -/
def updatePlaylist (playlists : List Playlist) (id : String) (b : PlaylistBody) :
    ApiResponse Playlist × List Playlist :=
  match validatePlaylistUpdate b with
  | some msg => (⟨400, Body.err msg⟩, playlists)
  | none =>
    match findPlaylistIndex playlists id with
    | none => (⟨404, Body.emptyObj⟩, playlists)
    | some i =>
      let updatedPlaylist := updatedPlaylistOf id b
      (⟨200, Body.ok updatedPlaylist⟩, playlists.set i updatedPlaylist)

/-- The PATCH merge on a playlist: `if (field)` truthiness on the four
string fields, `!== undefined` on spotify_url. -/
def applyPlaylistPatch (p : Playlist) (b : PlaylistBody) : Playlist :=
  { id := p.id
    naam := patchStr p.naam b.naam
    beschrijving := patchStr p.beschrijving b.beschrijving
    author := patchStr p.author b.author
    visibility := patchStr p.visibility b.visibility
    spotify_url := patchDefined p.spotify_url b.spotify_url }

/-- PATCH /api/playlists/:id : no validation, merge only. -/
def patchPlaylist (playlists : List Playlist) (id : String) (b : PlaylistBody) :
    ApiResponse Playlist × List Playlist :=
  match findPlaylistIndex playlists id with
  | none => (⟨404, Body.emptyObj⟩, playlists)
  | some i =>
    match playlists[i]? with
    | none => (⟨404, Body.emptyObj⟩, playlists)
    | some p =>
      let u := applyPlaylistPatch p b
      (⟨200, Body.ok u⟩, playlists.set i u)

/-- DELETE /api/playlists/:id. -/
def deletePlaylist (playlists : List Playlist) (id : String) :
    ApiResponse Playlist × List Playlist :=
  match findPlaylistIndex playlists id with
  | none => (⟨404, Body.emptyObj⟩, playlists)
  | some i =>
    match playlists[i]? with
    | none => (⟨404, Body.emptyObj⟩, playlists)
    | some p => (⟨200, Body.ok p⟩, playlists.eraseIdx i)

/-! ### Sample data for witnesses and counterexamples -/

def sampleTrack : Track := ⟨1, "Alpha", 120, 180, 2020, ["A1"], ["G1"], ""⟩

def sampleTrack2 : Track := ⟨2, "Beta", 100, 200, 2021, ["A2"], ["G2"], ""⟩

def samplePlaylist : Playlist := ⟨1, "Chill", "rustig", "mij", "public", ""⟩

def samplePlaylist2 : Playlist := ⟨2, "Dance", "druk", "jij", "private", ""⟩

/-! ### Lookup-by-parsed-path-id helper lemmas -/

theorem findTrackIndex_spec {tracks : List Track} {id : String} {i : Nat}
    (h : findTrackIndex tracks id = some i) :
    ∃ hi : i < tracks.length, parseIntJS id = some tracks[i].id := by
  unfold findTrackIndex at h
  rcases List.findIdx?_eq_some_iff_getElem.mp h with ⟨hi, hp, -⟩
  exact ⟨hi, (of_decide_eq_true hp).symm⟩

theorem findPlaylistIndex_spec {playlists : List Playlist} {id : String} {i : Nat}
    (h : findPlaylistIndex playlists id = some i) :
    ∃ hi : i < playlists.length, parseIntJS id = some playlists[i].id := by
  unfold findPlaylistIndex at h
  rcases List.findIdx?_eq_some_iff_getElem.mp h with ⟨hi, hp, -⟩
  exact ⟨hi, (of_decide_eq_true hp).symm⟩

theorem findTrackIndex_eq_none {tracks : List Track} {id : String}
    (h : ∀ t ∈ tracks, some t.id ≠ parseIntJS id) :
    findTrackIndex tracks id = none := by
  unfold findTrackIndex
  exact List.findIdx?_eq_none_iff.mpr (fun t ht => decide_eq_false (h t ht))

theorem findPlaylistIndex_eq_none {playlists : List Playlist} {id : String}
    (h : ∀ p ∈ playlists, some p.id ≠ parseIntJS id) :
    findPlaylistIndex playlists id = none := by
  unfold findPlaylistIndex
  exact List.findIdx?_eq_none_iff.mpr (fun p hp => decide_eq_false (h p hp))

theorem findTrack_eq_none {tracks : List Track} {id : String}
    (h : ∀ t ∈ tracks, some t.id ≠ parseIntJS id) :
    tracks.find? (fun t => some t.id = parseIntJS id) = none :=
  List.find?_eq_none.mpr (fun t ht hc => h t ht (of_decide_eq_true hc))

theorem findPlaylist_eq_none {playlists : List Playlist} {id : String}
    (h : ∀ p ∈ playlists, some p.id ≠ parseIntJS id) :
    playlists.find? (fun p => some p.id = parseIntJS id) = none :=
  List.find?_eq_none.mpr (fun p hp hc => h p hp (of_decide_eq_true hc))

/-! ### Branch lemmas for the handlers -/

theorem patchTrack_found {tracks : List Track} {id : String} {i : Nat} (b : TrackBody)
    (h : findTrackIndex tracks id = some i) (hi : i < tracks.length) :
    patchTrack tracks id b =
      (⟨200, Body.ok (applyTrackPatch tracks[i] b)⟩,
        tracks.set i (applyTrackPatch tracks[i] b)) := by
  simp [patchTrack, h, List.getElem?_eq_getElem hi]

theorem patchPlaylist_found {playlists : List Playlist} {id : String} {i : Nat}
    (b : PlaylistBody)
    (h : findPlaylistIndex playlists id = some i) (hi : i < playlists.length) :
    patchPlaylist playlists id b =
      (⟨200, Body.ok (applyPlaylistPatch playlists[i] b)⟩,
        playlists.set i (applyPlaylistPatch playlists[i] b)) := by
  simp [patchPlaylist, h, List.getElem?_eq_getElem hi]

theorem updateTrack_found {tracks : List Track} {id : String} {b : TrackBody} {i : Nat}
    (hv : validateTrackUpdate b = none) (h : findTrackIndex tracks id = some i) :
    updateTrack tracks id b =
      (⟨200, Body.ok (updatedTrackOf id b)⟩, tracks.set i (updatedTrackOf id b)) := by
  simp [updateTrack, hv, h]

theorem updatePlaylist_found {playlists : List Playlist} {id : String}
    {b : PlaylistBody} {i : Nat}
    (hv : validatePlaylistUpdate b = none) (h : findPlaylistIndex playlists id = some i) :
    updatePlaylist playlists id b =
      (⟨200, Body.ok (updatedPlaylistOf id b)⟩,
        playlists.set i (updatedPlaylistOf id b)) := by
  simp [updatePlaylist, hv, h]

theorem deleteTrack_found {tracks : List Track} {id : String} {i : Nat}
    (h : findTrackIndex tracks id = some i) (hi : i < tracks.length) :
    deleteTrack tracks id = (⟨200, Body.ok tracks[i]⟩, tracks.eraseIdx i) := by
  simp [deleteTrack, h, List.getElem?_eq_getElem hi]

theorem deletePlaylist_found {playlists : List Playlist} {id : String} {i : Nat}
    (h : findPlaylistIndex playlists id = some i) (hi : i < playlists.length) :
    deletePlaylist playlists id = (⟨200, Body.ok playlists[i]⟩, playlists.eraseIdx i) := by
  simp [deletePlaylist, h, List.getElem?_eq_getElem hi]

theorem patchTrack_notFound {tracks : List Track} {id : String} (b : TrackBody)
    (h : findTrackIndex tracks id = none) :
    patchTrack tracks id b = (⟨404, Body.emptyObj⟩, tracks) := by
  simp [patchTrack, h]

theorem patchPlaylist_notFound {playlists : List Playlist} {id : String} (b : PlaylistBody)
    (h : findPlaylistIndex playlists id = none) :
    patchPlaylist playlists id b = (⟨404, Body.emptyObj⟩, playlists) := by
  simp [patchPlaylist, h]

theorem updateTrack_notFound {tracks : List Track} {id : String} {b : TrackBody}
    (hv : validateTrackUpdate b = none) (h : findTrackIndex tracks id = none) :
    updateTrack tracks id b = (⟨404, Body.emptyObj⟩, tracks) := by
  simp [updateTrack, hv, h]

theorem updatePlaylist_notFound {playlists : List Playlist} {id : String} {b : PlaylistBody}
    (hv : validatePlaylistUpdate b = none) (h : findPlaylistIndex playlists id = none) :
    updatePlaylist playlists id b = (⟨404, Body.emptyObj⟩, playlists) := by
  simp [updatePlaylist, hv, h]

theorem deleteTrack_notFound {tracks : List Track} {id : String}
    (h : findTrackIndex tracks id = none) :
    deleteTrack tracks id = (⟨404, Body.emptyObj⟩, tracks) := by
  simp [deleteTrack, h]

theorem deletePlaylist_notFound {playlists : List Playlist} {id : String}
    (h : findPlaylistIndex playlists id = none) :
    deletePlaylist playlists id = (⟨404, Body.emptyObj⟩, playlists) := by
  simp [deletePlaylist, h]

def emptyTrackBody : TrackBody := ⟨none, none, none, none, none, none, none, none⟩

def emptyPlaylistBody : PlaylistBody := ⟨none, none, none, none, none, none⟩

/-! ### Claim C3 -/

def c3Body : PlaylistBody := ⟨none, none, none, none, some "invalid", none⟩

/-- Claim C3 counterexample: a PATCH on playlist 1 supplying visibility
"invalid" (outside the public/private enum) is not rejected: the handler
answers 200 and stores the out-of-enum value. -/
theorem c3_counterexample :
    c3Body.visibility = some "invalid" ∧
    ¬("invalid" = "public" ∨ "invalid" = "private") ∧
    (patchPlaylist [samplePlaylist] "1" c3Body).1 =
      ⟨200, Body.ok { samplePlaylist with visibility := "invalid" }⟩ ∧
    (patchPlaylist [samplePlaylist] "1" c3Body).2 =
      [{ samplePlaylist with visibility := "invalid" }] := by
  decide

/-- Claim C3 amended: the patch operations perform no validation at all:
they never answer 400 and never produce the validation-error body shape,
whatever the body contains; any truthy supplied value is stored
regardless of its type/enum constraint (the counterexample shows an
out-of-enum visibility being stored). -/
theorem c3_amended (ps : List Playlist) (ts : List Track) (id : String)
    (pb : PlaylistBody) (tb : TrackBody) :
    ((patchPlaylist ps id pb).1.status = 200 ∨ (patchPlaylist ps id pb).1.status = 404) ∧
    (∀ m, (patchPlaylist ps id pb).1.body ≠ Body.err m) ∧
    ((patchTrack ts id tb).1.status = 200 ∨ (patchTrack ts id tb).1.status = 404) ∧
    (∀ m, (patchTrack ts id tb).1.body ≠ Body.err m) := by
  have h1 : ((patchPlaylist ps id pb).1.status = 200 ∨ (patchPlaylist ps id pb).1.status = 404) ∧
      ∀ m, (patchPlaylist ps id pb).1.body ≠ Body.err m := by
    unfold patchPlaylist
    rcases findPlaylistIndex ps id with _ | i
    · simp
    · rcases h2 : ps[i]? with _ | p <;> simp [h2]
  have h2 : ((patchTrack ts id tb).1.status = 200 ∨ (patchTrack ts id tb).1.status = 404) ∧
      ∀ m, (patchTrack ts id tb).1.body ≠ Body.err m := by
    unfold patchTrack
    rcases findTrackIndex ts id with _ | i
    · simp
    · rcases h2 : ts[i]? with _ | t <;> simp [h2]
  exact ⟨h1.1, h1.2, h2.1, h2.2⟩

/-- Claim C3 witness: the amended statement at a concrete input. -/
theorem c3_witness :
    (patchPlaylist [samplePlaylist] "1" c3Body).1.body ≠
      Body.err "visibility must be one of public, private" :=
  (c3_amended [samplePlaylist] [sampleTrack] "1" c3Body emptyTrackBody).2.1 _

/-! ### Claim C9 -/

/-- Claim C9: every id-addressed operation whose path id matches no stored
record answers 404 with the empty-object body and leaves the collection
unchanged (for replace, once the body has passed validation, which the
handler checks before the lookup); the empty-object shape is distinct
from the validation-error shape and from the success/failure shapes. -/
theorem c9_notFound_envelope (ts : List Track) (ps : List Playlist) (id : String)
    (tb : TrackBody) (pb : PlaylistBody)
    (ht : ∀ t ∈ ts, some t.id ≠ parseIntJS id)
    (hp : ∀ p ∈ ps, some p.id ≠ parseIntJS id) :
    getTrackById ts id = ⟨404, Body.emptyObj⟩ ∧
    (validateTrackUpdate tb = none → updateTrack ts id tb = (⟨404, Body.emptyObj⟩, ts)) ∧
    patchTrack ts id tb = (⟨404, Body.emptyObj⟩, ts) ∧
    deleteTrack ts id = (⟨404, Body.emptyObj⟩, ts) ∧
    getPlaylistById ps id = ⟨404, Body.emptyObj⟩ ∧
    (validatePlaylistUpdate pb = none → updatePlaylist ps id pb = (⟨404, Body.emptyObj⟩, ps)) ∧
    patchPlaylist ps id pb = (⟨404, Body.emptyObj⟩, ps) ∧
    deletePlaylist ps id = (⟨404, Body.emptyObj⟩, ps) ∧
    (∀ (m : String) (t : Track), (Body.emptyObj : Body Track) ≠ Body.err m ∧
      (Body.emptyObj : Body Track) ≠ Body.fail m ∧
      (Body.emptyObj : Body Track) ≠ Body.ok t) := by
  have hti := findTrackIndex_eq_none ht
  have hpi := findPlaylistIndex_eq_none hp
  refine ⟨?_, fun hv => updateTrack_notFound hv hti, patchTrack_notFound tb hti,
    deleteTrack_notFound hti, ?_, fun hv => updatePlaylist_notFound hv hpi,
    patchPlaylist_notFound pb hpi, deletePlaylist_notFound hpi, by simp⟩
  · simp [getTrackById, findTrack_eq_none ht]
  · simp [getPlaylistById, findPlaylist_eq_none hp]

/-- Claim C9 witness: the 404 contract at a concrete nonexistent id. -/
theorem c9_witness :
    getTrackById [sampleTrack] "99999" = ⟨404, Body.emptyObj⟩ ∧
    patchPlaylist [samplePlaylist] "99999" emptyPlaylistBody =
      (⟨404, Body.emptyObj⟩, [samplePlaylist]) := by
  have h := c9_notFound_envelope [sampleTrack] [samplePlaylist] "99999"
    emptyTrackBody emptyPlaylistBody (by decide) (by decide)
  exact ⟨h.1, h.2.2.2.2.2.2.1⟩

/-! ### Claim C10 -/

/-- Claim C10: path ids are interpreted by JS integer-prefix parsing: two
path strings parsing to the same value are interchangeable in every
id-addressed operation of either resource (and "7abc" parses to 7 exactly
like "7"), while a path id parsing to NaN always takes the NotFound
branch (for replace, once the body has passed validation, which the
handler checks before the lookup). -/
theorem c10_path_id_parsing (s v : String) (hsv : parseIntJS s = parseIntJS v) :
    (parseIntJS "7abc" = some 7 ∧ parseIntJS "7" = some 7) ∧
    (∀ ts, getTrackById ts s = getTrackById ts v) ∧
    (∀ ts b, updateTrack ts s b = updateTrack ts v b) ∧
    (∀ ts b, patchTrack ts s b = patchTrack ts v b) ∧
    (∀ ts, deleteTrack ts s = deleteTrack ts v) ∧
    (∀ ps, getPlaylistById ps s = getPlaylistById ps v) ∧
    (∀ ps b, updatePlaylist ps s b = updatePlaylist ps v b) ∧
    (∀ ps b, patchPlaylist ps s b = patchPlaylist ps v b) ∧
    (∀ ps, deletePlaylist ps s = deletePlaylist ps v) ∧
    (parseIntJS s = none →
      (∀ ts, getTrackById ts s = ⟨404, Body.emptyObj⟩) ∧
      (∀ ts b, validateTrackUpdate b = none →
        updateTrack ts s b = (⟨404, Body.emptyObj⟩, ts)) ∧
      (∀ ts b, patchTrack ts s b = (⟨404, Body.emptyObj⟩, ts)) ∧
      (∀ ts, deleteTrack ts s = (⟨404, Body.emptyObj⟩, ts)) ∧
      (∀ ps, getPlaylistById ps s = ⟨404, Body.emptyObj⟩) ∧
      (∀ ps b, validatePlaylistUpdate b = none →
        updatePlaylist ps s b = (⟨404, Body.emptyObj⟩, ps)) ∧
      (∀ ps b, patchPlaylist ps s b = (⟨404, Body.emptyObj⟩, ps)) ∧
      (∀ ps, deletePlaylist ps s = (⟨404, Body.emptyObj⟩, ps))) := by
  refine ⟨⟨by decide, by decide⟩, ?_, ?_, ?_, ?_, ?_, ?_, ?_, ?_, ?_⟩
  · intro ts; simp only [getTrackById, hsv]
  · intro ts b; simp only [updateTrack, findTrackIndex, hsv, updatedTrackOf]
  · intro ts b; simp only [patchTrack, findTrackIndex, hsv]
  · intro ts; simp only [deleteTrack, findTrackIndex, hsv]
  · intro ps; simp only [getPlaylistById, hsv]
  · intro ps b; simp only [updatePlaylist, findPlaylistIndex, hsv, updatedPlaylistOf]
  · intro ps b; simp only [patchPlaylist, findPlaylistIndex, hsv]
  · intro ps; simp only [deletePlaylist, findPlaylistIndex, hsv]
  · intro hnan
    have ht : ∀ (ts : List Track), ∀ t ∈ ts, some t.id ≠ parseIntJS s := by
      intro ts t _ hc
      rw [hnan] at hc
      exact Option.some_ne_none _ hc
    have hp : ∀ (ps : List Playlist), ∀ p ∈ ps, some p.id ≠ parseIntJS s := by
      intro ps p _ hc
      rw [hnan] at hc
      exact Option.some_ne_none _ hc
    refine ⟨fun ts => by simp [getTrackById, findTrack_eq_none (ht ts)],
      fun ts b hv => updateTrack_notFound hv (findTrackIndex_eq_none (ht ts)),
      fun ts b => patchTrack_notFound b (findTrackIndex_eq_none (ht ts)),
      fun ts => deleteTrack_notFound (findTrackIndex_eq_none (ht ts)),
      fun ps => by simp [getPlaylistById, findPlaylist_eq_none (hp ps)],
      fun ps b hv => updatePlaylist_notFound hv (findPlaylistIndex_eq_none (hp ps)),
      fun ps b => patchPlaylist_notFound b (findPlaylistIndex_eq_none (hp ps)),
      fun ps => deletePlaylist_notFound (findPlaylistIndex_eq_none (hp ps))⟩

/-- Claim C10 witness: "7abc" behaves like "7", and a NaN path id yields
the NotFound outcome, at concrete inputs. -/
theorem c10_witness :
    getTrackById [sampleTrack2] "7abc" = getTrackById [sampleTrack2] "7" ∧
    patchTrack [sampleTrack] "abc" emptyTrackBody = (⟨404, Body.emptyObj⟩, [sampleTrack]) := by
  have h := c10_path_id_parsing "7abc" "7" (by decide)
  have h2 := c10_path_id_parsing "abc" "abc" rfl
  exact ⟨h.2.1 [sampleTrack2],
    (h2.2.2.2.2.2.2.2.2.2 (by decide)).2.2.1 [sampleTrack] emptyTrackBody⟩

/-! ### Claim C8 -/

theorem applyTrackPatch_id (t : Track) (b : TrackBody) : (applyTrackPatch t b).id = t.id :=
  rfl

theorem applyPlaylistPatch_id (p : Playlist) (b : PlaylistBody) :
    (applyPlaylistPatch p b).id = p.id :=
  rfl

/-- Claim C8: a successful PUT or PATCH never changes the id of the
record it replaces, whatever id value the body carries: the record stored
at the matched position and the record in the response keep the old id. -/
theorem c8_id_immutable :
    (∀ (ts : List Track) (id : String) (b : TrackBody) (i : Nat),
      validateTrackUpdate b = none → findTrackIndex ts id = some i →
      ((updateTrack ts id b).2[i]?).map Track.id = (ts[i]?).map Track.id ∧
      ∀ r, (updateTrack ts id b).1.body = Body.ok r →
        some r.id = (ts[i]?).map Track.id) ∧
    (∀ (ts : List Track) (id : String) (b : TrackBody) (i : Nat),
      findTrackIndex ts id = some i →
      ((patchTrack ts id b).2[i]?).map Track.id = (ts[i]?).map Track.id ∧
      ∀ r, (patchTrack ts id b).1.body = Body.ok r →
        some r.id = (ts[i]?).map Track.id) ∧
    (∀ (ps : List Playlist) (id : String) (b : PlaylistBody) (i : Nat),
      validatePlaylistUpdate b = none → findPlaylistIndex ps id = some i →
      ((updatePlaylist ps id b).2[i]?).map Playlist.id = (ps[i]?).map Playlist.id ∧
      ∀ r, (updatePlaylist ps id b).1.body = Body.ok r →
        some r.id = (ps[i]?).map Playlist.id) ∧
    (∀ (ps : List Playlist) (id : String) (b : PlaylistBody) (i : Nat),
      findPlaylistIndex ps id = some i →
      ((patchPlaylist ps id b).2[i]?).map Playlist.id = (ps[i]?).map Playlist.id ∧
      ∀ r, (patchPlaylist ps id b).1.body = Body.ok r →
        some r.id = (ps[i]?).map Playlist.id) := by
  refine ⟨?_, ?_, ?_, ?_⟩
  · intro ts id b i hv h
    rcases findTrackIndex_spec h with ⟨hi, hpid⟩
    have heq := updateTrack_found hv h
    have hid : (updatedTrackOf id b).id = ts[i].id := by
      simp [updatedTrackOf, hpid]
    constructor
    · rw [heq]
      simp [List.getElem?_set_self hi, List.getElem?_eq_getElem hi, hid]
    · intro r hr
      rw [heq] at hr
      simp only [Body.ok.injEq] at hr
      subst hr
      simp [List.getElem?_eq_getElem hi, hid]
  · intro ts id b i h
    rcases findTrackIndex_spec h with ⟨hi, -⟩
    have heq := patchTrack_found b h hi
    have hid := applyTrackPatch_id ts[i] b
    constructor
    · rw [heq]
      simp [List.getElem?_set_self hi, List.getElem?_eq_getElem hi, hid]
    · intro r hr
      rw [heq] at hr
      simp only [Body.ok.injEq] at hr
      subst hr
      simp [List.getElem?_eq_getElem hi, hid]
  · intro ps id b i hv h
    rcases findPlaylistIndex_spec h with ⟨hi, hpid⟩
    have heq := updatePlaylist_found hv h
    have hid : (updatedPlaylistOf id b).id = ps[i].id := by
      simp [updatedPlaylistOf, hpid]
    constructor
    · rw [heq]
      simp [List.getElem?_set_self hi, List.getElem?_eq_getElem hi, hid]
    · intro r hr
      rw [heq] at hr
      simp only [Body.ok.injEq] at hr
      subst hr
      simp [List.getElem?_eq_getElem hi, hid]
  · intro ps id b i h
    rcases findPlaylistIndex_spec h with ⟨hi, -⟩
    have heq := patchPlaylist_found b h hi
    have hid := applyPlaylistPatch_id ps[i] b
    constructor
    · rw [heq]
      simp [List.getElem?_set_self hi, List.getElem?_eq_getElem hi, hid]
    · intro r hr
      rw [heq] at hr
      simp only [Body.ok.injEq] at hr
      subst hr
      simp [List.getElem?_eq_getElem hi, hid]

def c8Body : TrackBody :=
  ⟨some 5, some "Nieuw", some 128, some 240, some 2022, some ["X"], some ["Y"], none⟩

/-- Claim C8 witness: a PUT with body id 5 on path id 1 keeps the stored
id at 1. -/
theorem c8_witness :
    ((updateTrack [sampleTrack] "1" c8Body).2[0]?).map Track.id =
      (([sampleTrack] : List Track)[0]?).map Track.id :=
  (c8_id_immutable.1 [sampleTrack] "1" c8Body 0 (by decide) (by decide)).1

/-! ### Claim C1 -/

/-- Field-level characterization of the track PATCH merge: absent or
falsy supplied strings/numbers leave the old value, truthy supplied
values overwrite, arrays always overwrite, spotify_url overwrites
whenever present, id is untouched. -/
def MergesTrack (told : Track) (b : TrackBody) (u : Track) : Prop :=
  u.id = told.id ∧
  (b.naam = none ∨ b.naam = some "" → u.naam = told.naam) ∧
  (∀ v, b.naam = some v → v ≠ "" → u.naam = v) ∧
  (b.bpm = none ∨ b.bpm = some 0 → u.bpm = told.bpm) ∧
  (∀ v, b.bpm = some v → v ≠ 0 → u.bpm = v) ∧
  (b.duur = none ∨ b.duur = some 0 → u.duur = told.duur) ∧
  (∀ v, b.duur = some v → v ≠ 0 → u.duur = v) ∧
  (b.jaar = none ∨ b.jaar = some 0 → u.jaar = told.jaar) ∧
  (∀ v, b.jaar = some v → v ≠ 0 → u.jaar = v) ∧
  (b.artiesten = none → u.artiesten = told.artiesten) ∧
  (∀ v, b.artiesten = some v → u.artiesten = v) ∧
  (b.genres = none → u.genres = told.genres) ∧
  (∀ v, b.genres = some v → u.genres = v) ∧
  (b.spotify_url = none → u.spotify_url = told.spotify_url) ∧
  (∀ v, b.spotify_url = some v → u.spotify_url = v)

/-- Field-level characterization of the playlist PATCH merge. -/
def MergesPlaylist (pold : Playlist) (b : PlaylistBody) (u : Playlist) : Prop :=
  u.id = pold.id ∧
  (b.naam = none ∨ b.naam = some "" → u.naam = pold.naam) ∧
  (∀ v, b.naam = some v → v ≠ "" → u.naam = v) ∧
  (b.beschrijving = none ∨ b.beschrijving = some "" → u.beschrijving = pold.beschrijving) ∧
  (∀ v, b.beschrijving = some v → v ≠ "" → u.beschrijving = v) ∧
  (b.author = none ∨ b.author = some "" → u.author = pold.author) ∧
  (∀ v, b.author = some v → v ≠ "" → u.author = v) ∧
  (b.visibility = none ∨ b.visibility = some "" → u.visibility = pold.visibility) ∧
  (∀ v, b.visibility = some v → v ≠ "" → u.visibility = v) ∧
  (b.spotify_url = none → u.spotify_url = pold.spotify_url) ∧
  (∀ v, b.spotify_url = some v → u.spotify_url = v)

theorem patchStr_none_or_empty {cur : String} {o : Option String}
    (h : o = none ∨ o = some "") : patchStr cur o = cur := by
  rcases h with h | h <;> simp [h, patchStr]

theorem patchStr_some {cur v : String} {o : Option String}
    (h : o = some v) (hne : v ≠ "") : patchStr cur o = v := by
  simp [h, patchStr, hne]

theorem patchInt_none_or_zero {cur : Int} {o : Option Int}
    (h : o = none ∨ o = some 0) : patchInt cur o = cur := by
  rcases h with h | h <;> simp [h, patchInt]

theorem patchInt_some {cur v : Int} {o : Option Int}
    (h : o = some v) (hne : v ≠ 0) : patchInt cur o = v := by
  simp [h, patchInt, hne]

theorem mergesTrack_apply (t : Track) (b : TrackBody) :
    MergesTrack t b (applyTrackPatch t b) := by
  refine ⟨rfl, ?_, ?_, ?_, ?_, ?_, ?_, ?_, ?_, ?_, ?_, ?_, ?_, ?_, ?_⟩
  · exact fun h => patchStr_none_or_empty h
  · exact fun v hv hne => patchStr_some hv hne
  · exact fun h => patchInt_none_or_zero h
  · exact fun v hv hne => patchInt_some hv hne
  · exact fun h => patchInt_none_or_zero h
  · exact fun v hv hne => patchInt_some hv hne
  · exact fun h => patchInt_none_or_zero h
  · exact fun v hv hne => patchInt_some hv hne
  · intro h
    simp [applyTrackPatch, h, patchArr]
  · intro v hv
    simp [applyTrackPatch, hv, patchArr]
  · intro h
    simp [applyTrackPatch, h, patchArr]
  · intro v hv
    simp [applyTrackPatch, hv, patchArr]
  · intro h
    simp [applyTrackPatch, h, patchDefined]
  · intro v hv
    simp [applyTrackPatch, hv, patchDefined]

theorem mergesPlaylist_apply (p : Playlist) (b : PlaylistBody) :
    MergesPlaylist p b (applyPlaylistPatch p b) := by
  refine ⟨rfl, ?_, ?_, ?_, ?_, ?_, ?_, ?_, ?_, ?_, ?_⟩
  · exact fun h => patchStr_none_or_empty h
  · exact fun v hv hne => patchStr_some hv hne
  · exact fun h => patchStr_none_or_empty h
  · exact fun v hv hne => patchStr_some hv hne
  · exact fun h => patchStr_none_or_empty h
  · exact fun v hv hne => patchStr_some hv hne
  · exact fun h => patchStr_none_or_empty h
  · exact fun v hv hne => patchStr_some hv hne
  · intro h
    simp [applyPlaylistPatch, h, patchDefined]
  · intro v hv
    simp [applyPlaylistPatch, hv, patchDefined]

def c1Body : TrackBody := ⟨none, none, some 0, none, none, none, none, none⟩

/-- Claim C1 counterexample: bpm is present in the patch body with value
0, yet the 200 response and the store keep the old bpm 120: the handler
tests JS truthiness, not presence, so a falsy supplied field is ignored. -/
theorem c1_counterexample :
    c1Body.bpm = some 0 ∧
    (patchTrack [sampleTrack] "1" c1Body).1 = ⟨200, Body.ok sampleTrack⟩ ∧
    (patchTrack [sampleTrack] "1" c1Body).2 = [sampleTrack] ∧
    sampleTrack.bpm = 120 ∧ (120 : Int) ≠ 0 := by
  decide

/-- Claim C1 amended: when the path id matches record R at position i,
PATCH answers 200 with the merged record and stores it at i; the merge
keeps every field absent from the body, overwrites string/number fields
only when the supplied value is truthy (non-empty / non-zero), always
overwrites supplied arrays, and overwrites spotify_url whenever it is
present. -/
theorem c1_patch_merge (ts : List Track) (ps : List Playlist) (id : String)
    (tb : TrackBody) (pb : PlaylistBody) (i j : Nat)
    (hti : findTrackIndex ts id = some i) (hpj : findPlaylistIndex ps id = some j) :
    ∀ told pold, ts[i]? = some told → ps[j]? = some pold →
      patchTrack ts id tb =
        (⟨200, Body.ok (applyTrackPatch told tb)⟩, ts.set i (applyTrackPatch told tb)) ∧
      MergesTrack told tb (applyTrackPatch told tb) ∧
      patchPlaylist ps id pb =
        (⟨200, Body.ok (applyPlaylistPatch pold pb)⟩, ps.set j (applyPlaylistPatch pold pb)) ∧
      MergesPlaylist pold pb (applyPlaylistPatch pold pb) := by
  intro told pold htold hpold
  rcases findTrackIndex_spec hti with ⟨hi, -⟩
  rcases findPlaylistIndex_spec hpj with ⟨hj, -⟩
  have htold2 : told = ts[i] := by
    rw [List.getElem?_eq_getElem hi] at htold
    exact (Option.some.inj htold).symm
  have hpold2 : pold = ps[j] := by
    rw [List.getElem?_eq_getElem hj] at hpold
    exact (Option.some.inj hpold).symm
  subst htold2
  subst hpold2
  exact ⟨patchTrack_found tb hti hi, mergesTrack_apply _ _,
    patchPlaylist_found pb hpj hj, mergesPlaylist_apply _ _⟩

/-- Claim C1 witness: the amended statement at concrete inputs. -/
theorem c1_witness :
    patchTrack [sampleTrack] "1" c1Body =
      (⟨200, Body.ok (applyTrackPatch sampleTrack c1Body)⟩,
        [sampleTrack].set 0 (applyTrackPatch sampleTrack c1Body)) :=
  ((c1_patch_merge [sampleTrack] [samplePlaylist] "1" c1Body emptyPlaylistBody 0 0
    (by decide) (by decide)) sampleTrack samplePlaylist rfl rfl).1

/-! ### Claim C4 -/

def c4Body : TrackBody :=
  ⟨some 99, some "Nieuw", some 128, some 240, some 2022, some ["X"], some ["Y"], none⟩

def c4PBody : PlaylistBody := ⟨some 77, some "Lijst", some "b", some "a", some "private", none⟩

/-- Claim C4 counterexample: a PUT whose valid body carries id 99 while
the path id parses to 1 is not rejected: it answers 200 and mutates the
store. -/
theorem c4_counterexample :
    c4Body.id = some 99 ∧ parseIntJS "1" = some 1 ∧ (99 : Int) ≠ 1 ∧
    validateTrackUpdate c4Body = none ∧
    (updateTrack [sampleTrack] "1" c4Body).1.status = 200 ∧
    (updateTrack [sampleTrack] "1" c4Body).2 ≠ [sampleTrack] := by
  decide

theorem validateTrackUpdate_set_id {b : TrackBody} (n : Int)
    (hv : validateTrackUpdate b = none) :
    validateTrackUpdate { b with id := some n } = none := by
  obtain ⟨bid, bn, bb, bd, bj, ba, bg, bs⟩ := b
  unfold validateTrackUpdate at hv ⊢
  split_ifs at hv ⊢ <;> simp_all

theorem validatePlaylistUpdate_set_id {b : PlaylistBody} (n : Int)
    (hv : validatePlaylistUpdate b = none) :
    validatePlaylistUpdate { b with id := some n } = none := by
  obtain ⟨bid, bn, bbe, bau, bvis, bs⟩ := b
  unfold validatePlaylistUpdate at hv ⊢
  rcases bvis with _ | v <;> split_ifs at hv ⊢ <;> simp_all

/-- Claim C4 amended: a PUT whose body passes validation and whose path
id matches a record is never rejected over the body id: the body id is
ignored entirely (replacing it by any other value gives the same
outcome); every other field of the matching record is overwritten from
the body, while the stored id is the integer-parsed path id, equal to the
matched record's id. -/
theorem c4_replace_ignores_body_id (ts : List Track) (ps : List Playlist) (id : String)
    (tb : TrackBody) (pb : PlaylistBody) (i j : Nat)
    (hvt : validateTrackUpdate tb = none) (hti : findTrackIndex ts id = some i)
    (hvp : validatePlaylistUpdate pb = none) (hpj : findPlaylistIndex ps id = some j) :
    (updateTrack ts id tb =
      (⟨200, Body.ok (updatedTrackOf id tb)⟩, ts.set i (updatedTrackOf id tb))) ∧
    (∀ n : Int, updateTrack ts id { tb with id := some n } = updateTrack ts id tb) ∧
    (ts[i]?).map Track.id = some (updatedTrackOf id tb).id ∧
    (∀ v, tb.naam = some v → (updatedTrackOf id tb).naam = v) ∧
    (∀ v, tb.bpm = some v → (updatedTrackOf id tb).bpm = v) ∧
    (∀ v, tb.duur = some v → (updatedTrackOf id tb).duur = v) ∧
    (∀ v, tb.jaar = some v → (updatedTrackOf id tb).jaar = v) ∧
    (∀ v, tb.artiesten = some v → (updatedTrackOf id tb).artiesten = v) ∧
    (∀ v, tb.genres = some v → (updatedTrackOf id tb).genres = v) ∧
    (∀ v, tb.spotify_url = some v → v ≠ "" → (updatedTrackOf id tb).spotify_url = v) ∧
    (updatePlaylist ps id pb =
      (⟨200, Body.ok (updatedPlaylistOf id pb)⟩, ps.set j (updatedPlaylistOf id pb))) ∧
    (∀ n : Int, updatePlaylist ps id { pb with id := some n } = updatePlaylist ps id pb) ∧
    (ps[j]?).map Playlist.id = some (updatedPlaylistOf id pb).id ∧
    (∀ v, pb.naam = some v → (updatedPlaylistOf id pb).naam = v) ∧
    (∀ v, pb.beschrijving = some v → (updatedPlaylistOf id pb).beschrijving = v) ∧
    (∀ v, pb.author = some v → (updatedPlaylistOf id pb).author = v) ∧
    (∀ v, pb.visibility = some v → (updatedPlaylistOf id pb).visibility = v) ∧
    (∀ v, pb.spotify_url = some v → v ≠ "" → (updatedPlaylistOf id pb).spotify_url = v) := by
  rcases findTrackIndex_spec hti with ⟨hi, hpid⟩
  rcases findPlaylistIndex_spec hpj with ⟨hj, hqid⟩
  refine ⟨updateTrack_found hvt hti, ?_, ?_, ?_, ?_, ?_, ?_, ?_, ?_, ?_,
    updatePlaylist_found hvp hpj, ?_, ?_, ?_, ?_, ?_, ?_, ?_⟩
  · intro n
    rw [updateTrack_found (validateTrackUpdate_set_id n hvt) hti,
      updateTrack_found hvt hti]
    rfl
  · simp [List.getElem?_eq_getElem hi, updatedTrackOf, hpid]
  · intro v hv2; simp [updatedTrackOf, hv2]
  · intro v hv2; simp [updatedTrackOf, hv2]
  · intro v hv2; simp [updatedTrackOf, hv2]
  · intro v hv2; simp [updatedTrackOf, hv2]
  · intro v hv2; simp [updatedTrackOf, hv2]
  · intro v hv2; simp [updatedTrackOf, hv2]
  · intro v hv2 hne; simp [updatedTrackOf, hv2]
  · intro n
    rw [updatePlaylist_found (validatePlaylistUpdate_set_id n hvp) hpj,
      updatePlaylist_found hvp hpj]
    rfl
  · simp [List.getElem?_eq_getElem hj, updatedPlaylistOf, hqid]
  · intro v hv2; simp [updatedPlaylistOf, hv2]
  · intro v hv2; simp [updatedPlaylistOf, hv2]
  · intro v hv2; simp [updatedPlaylistOf, hv2]
  · intro v hv2; simp [updatedPlaylistOf, hv2]
  · intro v hv2 hne; simp [updatedPlaylistOf, hv2]

/-- Claim C4 witness: the amended statement at concrete inputs with a
mismatching body id. -/
theorem c4_witness :
    updateTrack [sampleTrack] "1" c4Body =
      (⟨200, Body.ok (updatedTrackOf "1" c4Body)⟩,
        [sampleTrack].set 0 (updatedTrackOf "1" c4Body)) :=
  (c4_replace_ignores_body_id [sampleTrack] [samplePlaylist] "1" c4Body c4PBody 0 0
    (by decide) (by decide) (by decide) (by decide)).1

/-! ### Claim C2 -/

theorem le_foldl_max (l : List Int) (a : Int) : a ≤ l.foldl max a := by
  induction l generalizing a with
  | nil => exact le_refl a
  | cons x xs ih => exact le_trans (le_max_left a x) (ih (max a x))

theorem mem_le_foldl_max {x : Int} {l : List Int} (h : x ∈ l) (a : Int) :
    x ≤ l.foldl max a := by
  induction l generalizing a with
  | nil => cases h
  | cons y ys ih =>
    rcases List.mem_cons.mp h with rfl | h2
    · exact le_trans (le_max_right a x) (le_foldl_max ys (max a x))
    · exact ih h2 (max a y)

theorem foldl_max_mem (l : List Int) (a : Int) : l.foldl max a = a ∨ l.foldl max a ∈ l := by
  induction l generalizing a with
  | nil => exact Or.inl rfl
  | cons x xs ih =>
    rw [List.foldl_cons]
    rcases ih (max a x) with h | h
    · rcases max_cases a x with ⟨hm, -⟩ | ⟨hm, -⟩
      · exact Or.inl (by rw [h, hm])
      · exact Or.inr (by rw [h, hm]; exact List.mem_cons_self x xs)
    · exact Or.inr (List.mem_cons_of_mem x h)

theorem nextTrackId_gt {ts : List Track} : ∀ t ∈ ts, t.id < nextTrackId ts := by
  intro t ht
  cases ts with
  | nil => cases ht
  | cons t0 rest =>
    simp only [nextTrackId]
    rcases List.mem_cons.mp ht with rfl | h2
    · exact Int.lt_add_one_iff.mpr (le_foldl_max _ _)
    · exact Int.lt_add_one_iff.mpr (mem_le_foldl_max (List.mem_map_of_mem Track.id h2) _)

theorem nextPlaylistId_gt {ps : List Playlist} : ∀ p ∈ ps, p.id < nextPlaylistId ps := by
  intro p hp
  cases ps with
  | nil => cases hp
  | cons p0 rest =>
    simp only [nextPlaylistId]
    rcases List.mem_cons.mp hp with rfl | h2
    · exact Int.lt_add_one_iff.mpr (le_foldl_max _ _)
    · exact Int.lt_add_one_iff.mpr (mem_le_foldl_max (List.mem_map_of_mem Playlist.id h2) _)

theorem nextTrackId_eq_succ {ts : List Track} (h : ts ≠ []) :
    ∃ t ∈ ts, nextTrackId ts = t.id + 1 := by
  cases ts with
  | nil => exact absurd rfl h
  | cons t0 rest =>
    simp only [nextTrackId]
    rcases foldl_max_mem (rest.map Track.id) t0.id with hm | hm
    · exact ⟨t0, List.mem_cons_self t0 rest, by rw [hm]⟩
    · rcases List.mem_map.mp hm with ⟨t, ht, hid⟩
      exact ⟨t, List.mem_cons_of_mem t0 ht, by rw [hid]⟩

theorem nextPlaylistId_eq_succ {ps : List Playlist} (h : ps ≠ []) :
    ∃ p ∈ ps, nextPlaylistId ps = p.id + 1 := by
  cases ps with
  | nil => exact absurd rfl h
  | cons p0 rest =>
    simp only [nextPlaylistId]
    rcases foldl_max_mem (rest.map Playlist.id) p0.id with hm | hm
    · exact ⟨p0, List.mem_cons_self p0 rest, by rw [hm]⟩
    · rcases List.mem_map.mp hm with ⟨p, hp, hid⟩
      exact ⟨p, List.mem_cons_of_mem p0 hp, by rw [hid]⟩

def c2Body : TrackBody :=
  ⟨none, some "Nieuw", some 128, some 240, some 2022, some ["X"], some ["Y"], none⟩

def c2PBody : PlaylistBody := ⟨none, some "Lijst", some "b", some "a", some "public", none⟩

/-- Claim C2 counterexample: in a collection with ids 1 and 2, deleting
id 2 and then creating a record assigns id max+1 = 2 again: the id of a
deleted record IS reused when the deleted id exceeded the remaining
maximum. -/
theorem c2_counterexample :
    (deleteTrack [sampleTrack, sampleTrack2] "2").1 = ⟨200, Body.ok sampleTrack2⟩ ∧
    (deleteTrack [sampleTrack, sampleTrack2] "2").2 = [sampleTrack] ∧
    sampleTrack2.id = 2 ∧
    (createTrack [sampleTrack] c2Body).1.body =
      Body.ok (createdTrackOf [sampleTrack] c2Body) ∧
    (createdTrackOf [sampleTrack] c2Body).id = 2 := by
  decide

/-- Claim C2 amended: a successful create assigns the new record the id
max(existing ids)+1, or 1 when the collection is empty, which exceeds
every stored id, so id uniqueness is preserved; however an id CAN be
reused after a deletion, namely when the deleted record held the maximal
id (see the counterexample). -/
theorem c2_create_id (ts : List Track) (b : TrackBody)
    (hv : validateTrackCreate b = none) (ps : List Playlist) (pb : PlaylistBody)
    (hvp : validatePlaylistCreate pb = none) :
    (createTrack ts b).1 = ⟨201, Body.ok (createdTrackOf ts b)⟩ ∧
    (createTrack ts b).2 = ts ++ [createdTrackOf ts b] ∧
    (ts = [] → (createdTrackOf ts b).id = 1) ∧
    (∀ t ∈ ts, t.id < (createdTrackOf ts b).id) ∧
    (ts ≠ [] → ∃ t ∈ ts, (createdTrackOf ts b).id = t.id + 1) ∧
    ((ts.map Track.id).Nodup → ((createTrack ts b).2.map Track.id).Nodup) ∧
    (createPlaylist ps pb).1 = ⟨201, Body.ok (createdPlaylistOf ps pb)⟩ ∧
    (createPlaylist ps pb).2 = ps ++ [createdPlaylistOf ps pb] ∧
    (ps = [] → (createdPlaylistOf ps pb).id = 1) ∧
    (∀ p ∈ ps, p.id < (createdPlaylistOf ps pb).id) ∧
    (ps ≠ [] → ∃ p ∈ ps, (createdPlaylistOf ps pb).id = p.id + 1) ∧
    ((ps.map Playlist.id).Nodup → ((createPlaylist ps pb).2.map Playlist.id).Nodup) := by
  have hid : (createdTrackOf ts b).id = nextTrackId ts := rfl
  have hidp : (createdPlaylistOf ps pb).id = nextPlaylistId ps := rfl
  refine ⟨by simp [createTrack, hv], by simp [createTrack, hv], ?_, ?_, ?_, ?_,
    by simp [createPlaylist, hvp], by simp [createPlaylist, hvp], ?_, ?_, ?_, ?_⟩
  · intro h; subst h; rfl
  · intro t ht; rw [hid]; exact nextTrackId_gt t ht
  · intro h; rw [hid]; exact nextTrackId_eq_succ h
  · intro hnd
    have hstate : (createTrack ts b).2 = ts ++ [createdTrackOf ts b] := by
      simp [createTrack, hv]
    rw [hstate, List.map_append, List.nodup_append]
    refine ⟨hnd, List.nodup_singleton _, ?_⟩
    intro x hx hx2
    rcases List.mem_map.mp hx with ⟨t, ht, rfl⟩
    have hx3 : t.id = (createdTrackOf ts b).id := by
      simpa using hx2
    exact absurd hx3 (ne_of_lt (nextTrackId_gt t ht))
  · intro h; subst h; rfl
  · intro p hp; rw [hidp]; exact nextPlaylistId_gt p hp
  · intro h; rw [hidp]; exact nextPlaylistId_eq_succ h
  · intro hnd
    have hstate : (createPlaylist ps pb).2 = ps ++ [createdPlaylistOf ps pb] := by
      simp [createPlaylist, hvp]
    rw [hstate, List.map_append, List.nodup_append]
    refine ⟨hnd, List.nodup_singleton _, ?_⟩
    intro x hx hx2
    rcases List.mem_map.mp hx with ⟨p, hp, rfl⟩
    have hx3 : p.id = (createdPlaylistOf ps pb).id := by
      simpa using hx2
    exact absurd hx3 (ne_of_lt (nextPlaylistId_gt p hp))

/-- Claim C2 witness: the amended statement at concrete inputs. -/
theorem c2_witness :
    (createTrack [sampleTrack] c2Body).2 =
      [sampleTrack] ++ [createdTrackOf [sampleTrack] c2Body] :=
  (c2_create_id [sampleTrack] c2Body (by decide) [samplePlaylist] c2PBody (by decide)).2.1

/-! ### Substring and sorting infrastructure for the list claims -/

theorem listStartsWith_iff (s pat : List Char) :
    listStartsWith s pat = true ↔ ∃ rest, s = pat ++ rest := by
  induction pat generalizing s with
  | nil => simp [listStartsWith]
  | cons c cs ih =>
    cases s with
    | nil => simp [listStartsWith]
    | cons a as =>
      simp only [listStartsWith, Bool.and_eq_true, decide_eq_true_eq, ih, List.cons_append]
      constructor
      · rintro ⟨rfl, rest, rfl⟩
        exact ⟨rest, rfl⟩
      · rintro ⟨rest, h⟩
        injection h with h1 h2
        exact ⟨h1, rest, h2⟩

theorem listContains_iff (s pat : List Char) :
    listContains s pat = true ↔ ∃ pre post, s = pre ++ pat ++ post := by
  induction s with
  | nil =>
    simp only [listContains, List.isEmpty_iff]
    constructor
    · rintro rfl
      exact ⟨[], [], rfl⟩
    · rintro ⟨pre, post, h⟩
      rcases List.append_eq_nil.mp h.symm with ⟨h1, h2⟩
      rcases List.append_eq_nil.mp h1 with ⟨-, h3⟩
      exact h3
  | cons a as ih =>
    simp only [listContains, Bool.or_eq_true, ih, listStartsWith_iff]
    constructor
    · rintro (⟨rest, hr⟩ | ⟨pre, post, hp⟩)
      · exact ⟨[], rest, by simpa using hr⟩
      · exact ⟨a :: pre, post, by rw [hp]; rfl⟩
    · rintro ⟨pre, post, hp⟩
      cases pre with
      | nil => exact Or.inl ⟨post, by simpa using hp⟩
      | cons x xs =>
        injection hp with h1 h2
        exact Or.inr ⟨xs, post, h2⟩

theorem jsIncludes_iff (s pat : String) :
    jsIncludes s pat = true ↔ ∃ pre post, s.toList = pre ++ pat.toList ++ post :=
  listContains_iff s.toList pat.toList

theorem mem_sortByName {α : Type} (lc : String → String → Int) (so : Option String)
    (name : α → String) (l : List α) (x : α) :
    x ∈ sortByName lc so name l ↔ x ∈ l := by
  unfold sortByName
  split_ifs <;> simp [List.mem_insertionSort]

def noQuery : PlaylistsQuery := ⟨none, none, none, none, none⟩

def lcStd (a b : String) : Int := if a < b then -1 else if b < a then 1 else 0

theorem lcStd_le {a b : String} : lcStd a b ≤ 0 ↔ a ≤ b := by
  unfold lcStd
  split_ifs with h1 h2
  · norm_num [h1.le]
  · norm_num [not_le.mpr h2]
  · norm_num [le_of_not_lt h2]

theorem lcStd_total : ∀ a b, lcStd a b ≤ 0 ∨ lcStd b a ≤ 0 := by
  intro a b
  rcases le_total a b with h | h
  · exact Or.inl (lcStd_le.mpr h)
  · exact Or.inr (lcStd_le.mpr h)

theorem lcStd_trans : ∀ a b c, lcStd a b ≤ 0 → lcStd b c ≤ 0 → lcStd a c ≤ 0 :=
  fun _ _ _ h1 h2 => lcStd_le.mpr (le_trans (lcStd_le.mp h1) (lcStd_le.mp h2))

/-! ### Claim C5 -/

/-- The conjunction of the supplied track filters, with substring
matching spelled out as a list decomposition of the lowercased strings. -/
def trackMatchesFilters (q : TracksQuery) (t : Track) : Prop :=
  (∀ s, q.naam = some s → s ≠ "" →
    ∃ pre post, (toLowerJS t.naam).toList = pre ++ (toLowerJS s).toList ++ post) ∧
  (∀ s, q.artiest = some s → s ≠ "" →
    ∃ a ∈ t.artiesten, ∃ pre post, (toLowerJS a).toList = pre ++ (toLowerJS s).toList ++ post) ∧
  (∀ s, q.genre = some s → s ≠ "" →
    ∃ g ∈ t.genres, ∃ pre post, (toLowerJS g).toList = pre ++ (toLowerJS s).toList ++ post) ∧
  (∀ s, q.jaar = some s → s ≠ "" → parseIntJS s = some t.jaar)

theorem mem_filterNaam {o : Option String} {ts : List Track} {t : Track} :
    t ∈ filterNaam o ts ↔ t ∈ ts ∧ ∀ s, o = some s → s ≠ "" →
      ∃ pre post, (toLowerJS t.naam).toList = pre ++ (toLowerJS s).toList ++ post := by
  unfold filterNaam
  rcases o with _ | s
  · simp
  · by_cases hs : s = ""
    · simp [hs]
    · simp [hs, List.mem_filter, jsIncludes_iff]

theorem mem_filterArtiest {o : Option String} {ts : List Track} {t : Track} :
    t ∈ filterArtiest o ts ↔ t ∈ ts ∧ ∀ s, o = some s → s ≠ "" →
      ∃ a ∈ t.artiesten, ∃ pre post, (toLowerJS a).toList = pre ++ (toLowerJS s).toList ++ post := by
  unfold filterArtiest
  rcases o with _ | s
  · simp
  · by_cases hs : s = ""
    · simp [hs]
    · simp [hs, List.mem_filter, List.any_eq_true, jsIncludes_iff]

theorem mem_filterGenre {o : Option String} {ts : List Track} {t : Track} :
    t ∈ filterGenre o ts ↔ t ∈ ts ∧ ∀ s, o = some s → s ≠ "" →
      ∃ g ∈ t.genres, ∃ pre post, (toLowerJS g).toList = pre ++ (toLowerJS s).toList ++ post := by
  unfold filterGenre
  rcases o with _ | s
  · simp
  · by_cases hs : s = ""
    · simp [hs]
    · simp [hs, List.mem_filter, List.any_eq_true, jsIncludes_iff]

theorem mem_filterJaar {o : Option String} {ts : List Track} {t : Track} :
    t ∈ filterJaar o ts ↔ t ∈ ts ∧ ∀ s, o = some s → s ≠ "" →
      parseIntJS s = some t.jaar := by
  unfold filterJaar
  rcases o with _ | s
  · simp
  · by_cases hs : s = ""
    · simp [hs]
    · simp [hs, List.mem_filter, eq_comm]

theorem mem_filteredTracks {q : TracksQuery} {ts : List Track} {t : Track} :
    t ∈ filteredTracks q ts ↔ t ∈ ts ∧ trackMatchesFilters q t := by
  unfold filteredTracks trackMatchesFilters
  rw [mem_filterJaar, mem_filterGenre, mem_filterArtiest, mem_filterNaam]
  tauto

/-- Claim C5: a track is in the list response exactly when it is stored
and satisfies every supplied filter — naam, artiest, genre as
case-insensitive substring matches (artiest/genre against some element of
the array), jaar by integer equality of the parsed filter; and a filter
value of jaar that parses to NaN yields an empty result rather than an
error. -/
theorem c5_tracks_filters (lc : String → String → Int) (ts : List Track) (q : TracksQuery) :
    (∀ t, t ∈ (getAllTracks lc ts q).body.dataList ↔
      t ∈ ts ∧ trackMatchesFilters q t) ∧
    (∀ s, q.jaar = some s → s ≠ "" → parseIntJS s = none →
      (getAllTracks lc ts q).body.dataList = []) ∧
    (getAllTracks lc ts q).status = 200 := by
  have hdata : (getAllTracks lc ts q).body.dataList =
      sortByName lc q.sort Track.naam (filteredTracks q ts) := rfl
  refine ⟨?_, ?_, rfl⟩
  · intro t
    rw [hdata, mem_sortByName, mem_filteredTracks]
  · intro s hs hne hnan
    have h2 : filteredTracks q ts = [] := by
      unfold filteredTracks filterJaar
      rw [hs]
      dsimp only
      rw [if_neg hne]
      apply List.filter_eq_nil_iff.mpr
      intro a ha
      simp [hnan]
    rw [hdata, h2]
    unfold sortByName
    split_ifs <;> rfl

def c5NanQuery : TracksQuery := ⟨none, none, none, none, some "xyz"⟩

/-- Claim C5 witness: a non-numeric jaar filter yields the empty result. -/
theorem c5_witness :
    (getAllTracks lcStd [sampleTrack, sampleTrack2] c5NanQuery).body.dataList = [] :=
  (c5_tracks_filters lcStd [sampleTrack, sampleTrack2] c5NanQuery).2.1 "xyz" rfl
    (by decide) (by decide)

/-! ### Claim C6 -/

def c6Query : PlaylistsQuery := ⟨none, some "Chill", none, none, none⟩

/-- Claim C6 counterexample: with a naam filter supplied, the playlists
list still returns every stored playlist, including one whose naam
matches the filter in no sense (neither substring nor equality, in any
case): the playlists controller implements no field filters. -/
theorem c6_counterexample :
    c6Query.naam = some "Chill" ∧
    (getAllPlaylists lcStd [samplePlaylist, samplePlaylist2] c6Query).body.dataList =
      [samplePlaylist, samplePlaylist2] ∧
    jsIncludes (toLowerJS samplePlaylist2.naam) (toLowerJS "Chill") = false ∧
    samplePlaylist2.naam ≠ "Chill" := by
  decide

/-- Claim C6 amended: the playlists list operation supports no field
filters: its result depends only on the sort parameter, and every stored
playlist is always returned. -/
theorem c6_playlists_no_filters (lc : String → String → Int) (ps : List Playlist)
    (q q2 : PlaylistsQuery) (h : q.sort = q2.sort) :
    getAllPlaylists lc ps q = getAllPlaylists lc ps q2 ∧
    (∀ p, p ∈ (getAllPlaylists lc ps q).body.dataList ↔ p ∈ ps) ∧
    (getAllPlaylists lc ps q).status = 200 := by
  refine ⟨?_, ?_, rfl⟩
  · unfold getAllPlaylists
    rw [h]
  · intro p
    have h1 : (getAllPlaylists lc ps q).body.dataList =
        sortByName lc q.sort Playlist.naam ps := rfl
    rw [h1, mem_sortByName]

/-- Claim C6 witness: the amended statement at concrete inputs. -/
theorem c6_witness :
    getAllPlaylists lcStd [samplePlaylist] c6Query =
      getAllPlaylists lcStd [samplePlaylist] noQuery :=
  (c6_playlists_no_filters lcStd [samplePlaylist] c6Query noQuery rfl).1

/-! ### Claim C7 -/

theorem pairwise_sortByName_asc {α : Type} (lc : String → String → Int)
    (htot : ∀ a b, lc a b ≤ 0 ∨ lc b a ≤ 0)
    (htrans : ∀ a b c, lc a b ≤ 0 → lc b c ≤ 0 → lc a c ≤ 0)
    (name : α → String) (l : List α) :
    (sortByName lc (some "asc") name l).Pairwise (fun a b => lc (name a) (name b) ≤ 0) := by
  haveI : IsTotal α (fun a b => lc (name a) (name b) ≤ 0) := ⟨fun a b => htot _ _⟩
  haveI : IsTrans α (fun a b => lc (name a) (name b) ≤ 0) := ⟨fun a b c => htrans _ _ _⟩
  have he : sortByName lc (some "asc") name l =
      List.insertionSort (fun a b => lc (name a) (name b) ≤ 0) l := by
    simp [sortByName]
  rw [he]
  exact List.sorted_insertionSort _ l

theorem pairwise_sortByName_desc {α : Type} (lc : String → String → Int)
    (htot : ∀ a b, lc a b ≤ 0 ∨ lc b a ≤ 0)
    (htrans : ∀ a b c, lc a b ≤ 0 → lc b c ≤ 0 → lc a c ≤ 0)
    (name : α → String) (l : List α) :
    (sortByName lc (some "desc") name l).Pairwise (fun a b => lc (name b) (name a) ≤ 0) := by
  haveI : IsTotal α (fun a b => lc (name b) (name a) ≤ 0) := ⟨fun a b => htot _ _⟩
  haveI : IsTrans α (fun a b => lc (name b) (name a) ≤ 0) :=
    ⟨fun a b c h1 h2 => htrans _ _ _ h2 h1⟩
  have he : sortByName lc (some "desc") name l =
      List.insertionSort (fun a b => lc (name b) (name a) ≤ 0) l := by
    simp [sortByName]
  rw [he]
  exact List.sorted_insertionSort _ l

theorem filterNaam_sublist (o : Option String) (ts : List Track) :
    List.Sublist (filterNaam o ts) ts := by
  unfold filterNaam
  rcases o with _ | s
  · exact List.Sublist.refl ts
  · dsimp only
    split_ifs
    · exact List.Sublist.refl ts
    · exact List.filter_sublist ts

theorem filterArtiest_sublist (o : Option String) (ts : List Track) :
    List.Sublist (filterArtiest o ts) ts := by
  unfold filterArtiest
  rcases o with _ | s
  · exact List.Sublist.refl ts
  · dsimp only
    split_ifs
    · exact List.Sublist.refl ts
    · exact List.filter_sublist ts

theorem filterGenre_sublist (o : Option String) (ts : List Track) :
    List.Sublist (filterGenre o ts) ts := by
  unfold filterGenre
  rcases o with _ | s
  · exact List.Sublist.refl ts
  · dsimp only
    split_ifs
    · exact List.Sublist.refl ts
    · exact List.filter_sublist ts

theorem filterJaar_sublist (o : Option String) (ts : List Track) :
    List.Sublist (filterJaar o ts) ts := by
  unfold filterJaar
  rcases o with _ | s
  · exact List.Sublist.refl ts
  · dsimp only
    split_ifs
    · exact List.Sublist.refl ts
    · exact List.filter_sublist ts

theorem filteredTracks_sublist (q : TracksQuery) (ts : List Track) :
    List.Sublist (filteredTracks q ts) ts :=
  List.Sublist.trans (filterJaar_sublist _ _)
    (List.Sublist.trans (filterGenre_sublist _ _)
      (List.Sublist.trans (filterArtiest_sublist _ _) (filterNaam_sublist _ _)))

/-- Claim C7: under any comparator that is total and transitive on the
nonpositive side (as localeCompare is), sort=asc makes every adjacent
pair of the returned list nondecreasing in naam, sort=desc the reverse;
with sort neither asc nor desc the tracks result is exactly the filtered
list, a sublist of the store (insertion order), and the playlists result
is the stored list itself. -/
theorem c7_sort_monotone (lc : String → String → Int)
    (htot : ∀ a b, lc a b ≤ 0 ∨ lc b a ≤ 0)
    (htrans : ∀ a b c, lc a b ≤ 0 → lc b c ≤ 0 → lc a c ≤ 0)
    (ts : List Track) (q : TracksQuery) (ps : List Playlist) (qp : PlaylistsQuery) :
    (q.sort = some "asc" →
      ((getAllTracks lc ts q).body.dataList).Pairwise
        (fun a b => lc a.naam b.naam ≤ 0)) ∧
    (q.sort = some "desc" →
      ((getAllTracks lc ts q).body.dataList).Pairwise
        (fun a b => lc b.naam a.naam ≤ 0)) ∧
    (q.sort ≠ some "asc" → q.sort ≠ some "desc" →
      (getAllTracks lc ts q).body.dataList = filteredTracks q ts ∧
      List.Sublist (filteredTracks q ts) ts) ∧
    (qp.sort = some "asc" →
      ((getAllPlaylists lc ps qp).body.dataList).Pairwise
        (fun a b => lc a.naam b.naam ≤ 0)) ∧
    (qp.sort = some "desc" →
      ((getAllPlaylists lc ps qp).body.dataList).Pairwise
        (fun a b => lc b.naam a.naam ≤ 0)) ∧
    (qp.sort ≠ some "asc" → qp.sort ≠ some "desc" →
      (getAllPlaylists lc ps qp).body.dataList = ps) := by
  have hdata : (getAllTracks lc ts q).body.dataList =
      sortByName lc q.sort Track.naam (filteredTracks q ts) := rfl
  have hdatap : (getAllPlaylists lc ps qp).body.dataList =
      sortByName lc qp.sort Playlist.naam ps := rfl
  refine ⟨?_, ?_, ?_, ?_, ?_, ?_⟩
  · intro h
    rw [hdata, h]
    exact pairwise_sortByName_asc lc htot htrans Track.naam _
  · intro h
    rw [hdata, h]
    exact pairwise_sortByName_desc lc htot htrans Track.naam _
  · intro h1 h2
    refine ⟨?_, filteredTracks_sublist q ts⟩
    rw [hdata]
    unfold sortByName
    rw [if_neg h1, if_neg h2]
  · intro h
    rw [hdatap, h]
    exact pairwise_sortByName_asc lc htot htrans Playlist.naam _
  · intro h
    rw [hdatap, h]
    exact pairwise_sortByName_desc lc htot htrans Playlist.naam _
  · intro h1 h2
    rw [hdatap]
    unfold sortByName
    rw [if_neg h1, if_neg h2]

def c7AscQuery : TracksQuery := ⟨some "asc", none, none, none, none⟩

/-- Claim C7 witness: ascending sort at a concrete comparator and list. -/
theorem c7_witness :
    ((getAllTracks lcStd [sampleTrack2, sampleTrack] c7AscQuery).body.dataList).Pairwise
      (fun a b => lcStd a.naam b.naam ≤ 0) :=
  (c7_sort_monotone lcStd lcStd_total lcStd_trans [sampleTrack2, sampleTrack]
    c7AscQuery [samplePlaylist] noQuery).1 rfl
